import Mathlib

/-!
Verification of `src/create_github_issues.py`.

The script reads a YAML task list and creates GitHub issues.  The file defines
four top-level functions (`check_configuration`, `load_issues_from_yaml`,
`create_github_issue`) and a `main` that processes a `{phases: [{name, tasks}]}`
document.  Notably, `main` does not call the first three functions; it calls
`load_task_list`, `GitHubIssueCreator.create_issue`, `generate_issue_body` and
`get_labels_for_task`, none of which are defined in `src/` — those are modelled
from the spec where a claim needs them, and are marked as such.

We embed Python values flowing through the script as a small JSON-like type,
dictionaries as association lists with Python `dict.get` semantics, and each
function as a pure Lean function from its inputs (plus an oracle for the
network) to its return value and the list of lines it prints.
-/

set_option autoImplicit false

namespace GhIssues

/-- Python/YAML values as they occur in this script: strings, integers, null,
lists and dictionaries (`yaml.safe_load` output and request payloads). -/
inductive Json where
  | null : Json
  | str (s : String) : Json
  | num (n : Int) : Json
  | arr (xs : List Json) : Json
  | obj (kvs : List (String × Json)) : Json

/-- A Python dictionary with string keys, as an ordered association list. -/
abbrev Dict := List (String × Json)

/-- First value bound to key `k`, if any (Python `k in d` / `d[k]`). -/
def dictFind (d : Dict) (k : String) : Option Json :=
  match d with
  | [] => none
  | (k2, v) :: rest => if k2 = k then some v else dictFind rest k

/-- Python `k in d`. -/
def hasKey (d : Dict) (k : String) : Bool :=
  (dictFind d k).isSome

/-- Python `d.get(k)`: the bound value, or `None` when the key is absent. -/
def pyGet (d : Dict) (k : String) : Json :=
  (dictFind d k).getD Json.null

/-- Python `d.get(k, default)`: the bound value (even if it is `None`), or
`default` when the key is absent. -/
def pyGetD (d : Dict) (k : String) (default : Json) : Json :=
  (dictFind d k).getD default

/-- Python truthiness of the values above (`if x:`): `None`, `""`, `0` and
empty collections are falsy. -/
def truthy : Json → Bool
  | Json.null => false
  | Json.str s => !s.isEmpty
  | Json.num n => decide (n ≠ 0)
  | Json.arr xs => !xs.isEmpty
  | Json.obj kvs => !kvs.isEmpty

/-- Python `str()` / f-string rendering of the values that reach f-strings in
this script (strings themselves, `None`, and integers); the composite cases do
not occur in any string interpolation the claims touch. -/
def pyStr : Json → String
  | Json.null => "None"
  | Json.str s => s
  | Json.num n => toString n
  | Json.arr _ => "[...]"
  | Json.obj _ => "\x7b...\x7d"

/-- The list of elements of a YAML sequence (Python iteration over a list);
non-list values are not iterated anywhere a claim exercises. -/
def asArr : Json → List Json
  | Json.arr xs => xs
  | _ => []

/-- The entries of a YAML mapping; used where the script calls `.get` on a
parsed value. -/
def asDict : Json → Dict
  | Json.obj kvs => kvs
  | _ => []

/-- `j.get k` on a parsed YAML value (Python `dict.get`). -/
def jGetD (j : Json) (k : String) (default : Json) : Json :=
  pyGetD (asDict j) k default

/-- Elements of a YAML string sequence, rendered as strings. -/
def strList (j : Json) : List String :=
  (asArr j).map pyStr

/-- Substring occurrence over the character lists of two strings. -/
def charsPrefix : List Char → List Char → Bool
  | [], _ => true
  | _ :: _, [] => false
  | a :: as, b :: bs => a = b && charsPrefix as bs

/-- Does `pat` occur contiguously in `s`? -/
def charsContain (pat : List Char) : List Char → Bool
  | [] => charsPrefix pat []
  | c :: rest => charsPrefix pat (c :: rest) || charsContain pat rest

/-- `strContains s pat`: `pat` occurs as a substring of `s`. -/
def strContains (s pat : String) : Bool :=
  charsContain pat.data s.data

/-- Does a printed line begin like the milestone notice of src line 106?
Every other line the script prints starts differently. -/
def isInfoLine (l : String) : Bool :=
  charsPrefix ("ℹ️ Info:").data l.data

/-- Number of informational milestone notices among a list of printed
lines. -/
def infoCount (lines : List String) : Nat :=
  (lines.filter isInfoLine).length

/-! ## `check_configuration` (src lines 53–64)

Reads the module globals `REPO_OWNER`, `REPO_NAME`, `GITHUB_TOKEN`; here they
are parameters.  `GITHUB_TOKEN = os.getenv("GITHUB_TOKEN")` is `None` or a
string, and `if not GITHUB_TOKEN` is Python truthiness. -/

/-- The placeholder sentinel for `REPO_OWNER` in the script. -/
def ownerPlaceholder : String := "YourGitHubUsername"

/-- The placeholder sentinel for `REPO_NAME` in the script. -/
def namePlaceholder : String := "your-repo-name"

/-- `check_configuration()`: `False` when owner/name still equal the
placeholders or the token is unset/empty, `True` otherwise. -/
def check_configuration (repo_owner repo_name : String)
    (github_token : Option String) : Bool :=
  if repo_owner = ownerPlaceholder ∨ repo_name = namePlaceholder then
    false
  else if !truthy ((github_token.map Json.str).getD Json.null) then
    false
  else
    true

/-! ## `load_issues_from_yaml` (src lines 67–83)

The interaction of the file system and the YAML parser is the function's
input: the file is missing (`FileNotFoundError`), or parsing raises
`yaml.YAMLError` with a diagnostic, or parsing yields a value.  The function
returns `None` on both error paths, `[]` when the parsed value is falsy, and
the parsed value otherwise, printing the corresponding message lines. -/

/-- Outcome of `open` + `yaml.safe_load` on the file at the given path. -/
inductive ReadResult where
  | missing : ReadResult
  | parseError (details : String) : ReadResult
  | parsed (v : Json) : ReadResult

/-- `load_issues_from_yaml(file_path)`: the returned value (`none` models
Python `None`) and the printed lines. -/
def load_issues_from_yaml (file_path : String) (read : ReadResult) :
    Option Json × List String :=
  match read with
  | ReadResult.missing =>
      (none,
       ["❌ Error: The file \x27" ++ file_path ++
        "\x27 was not found in the current directory."])
  | ReadResult.parseError details =>
      (none,
       ["❌ Error: Could not parse YAML file \x27" ++ file_path ++
        "\x27. Please check its format.",
        "   Details: " ++ details])
  | ReadResult.parsed v =>
      if !truthy v then
        (some (Json.arr []),
         ["⚠️ Warning: The file \x27" ++ file_path ++
          "\x27 is empty or not formatted correctly."])
      else
        (some v, [])

/-! ## `create_github_issue` (src lines 86–121)

The network interaction is the function's input: `requests.post` either raises
a transport-level `RequestException` or returns a response with a status code,
a text body, and a parsed JSON body containing `number` and `html_url`.
`response.raise_for_status()` raises `requests.exceptions.HTTPError` — a
subclass of `RequestException`, hence caught by the function's own handler —
exactly when the status is 4xx or 5xx, so the explicit non-201 branch in the
source is reached only for 2xx/3xx statuses. -/

/-- The fields of a `requests` response that the script reads. -/
structure HttpResponse where
  status : Nat
  text : String
  number : Nat
  html_url : String

/-- Outcome of `requests.post`: a response, or a transport-level
`RequestException` carrying a message. -/
inductive PostResult where
  | ok (r : HttpResponse) : PostResult
  | exn (msg : String) : PostResult

/-- The message of the `requests.exceptions.HTTPError` raised by
`response.raise_for_status()` for a 4xx/5xx status.  Modelled from the
`requests` library: the message names the status code and the request URL but
never includes the response body. -/
def httpErrorMsg (r : HttpResponse) : String :=
  toString r.status ++
    (if r.status < 500 then " Client Error" else " Server Error") ++
    ": for url: " ++ "https://api.github.com/repos/" ++ ownerPlaceholder ++
    "/" ++ namePlaceholder ++ "/issues"

/-- The payload dictionary literal of src lines 93–97: keys `title`, `body`
and `labels` are always present; `body` is `issue_data.get("body")`, so it is
`None` when the record has no body; `labels` defaults to `[]`. -/
def basePayload (issue_data : Dict) : Dict :=
  [("title", pyGet issue_data "title"),
   ("body", pyGet issue_data "body"),
   ("labels", pyGetD issue_data "labels" (Json.arr []))]

/-- The payload after the optional-field step of src lines 100–101: a truthy
`assignee` adds an `assignees` singleton; `milestone` is never added. -/
def payloadOf (issue_data : Dict) : Dict :=
  if truthy (pyGet issue_data "assignee") then
    basePayload issue_data ++ [("assignees", Json.arr [pyGet issue_data "assignee"])]
  else
    basePayload issue_data

/-- `create_github_issue(issue_data)`: the printed lines, and the payload
posted to the API (`none` when the entry was skipped and no request was
made).  `net` maps the posted payload to the outcome of `requests.post`. -/
def create_github_issue (issue_data : Dict) (net : Dict → PostResult) :
    List String × Option Dict :=
  if !hasKey issue_data "title" then
    (["⚠️ Skipping entry because it\x27s missing a \x27title\x27."], none)
  else
    let payload := payloadOf issue_data
    let titleStr := pyStr (pyGet issue_data "title")
    let milestoneLines :=
      if truthy (pyGet issue_data "milestone") then
        ["ℹ️ Info: Milestone \x27" ++ pyStr (pyGet issue_data "milestone") ++
         "\x27 ignored. API requires a numeric ID."]
      else []
    let postLines :=
      match net payload with
      | PostResult.exn msg =>
          ["❌ Error connecting to the GitHub API for issue: \x27" ++
             titleStr ++ "\x27",
           "   Details: " ++ msg]
      | PostResult.ok r =>
          if 400 ≤ r.status then
            ["❌ Error connecting to the GitHub API for issue: \x27" ++
               titleStr ++ "\x27",
             "   Details: " ++ httpErrorMsg r]
          else if r.status = 201 then
            ["✅ Successfully created issue: \x27" ++ titleStr ++ "\x27",
             "   URL: " ++ r.html_url]
          else
            ["⚠️ Failed to create issue \x27" ++ titleStr ++
               "\x27 with status code: " ++ toString r.status,
             "   Response: " ++ r.text]
    (milestoneLines ++ postLines, some payload)

/-! ## `main` (src lines 124–217)

`main` parses CLI arguments, loads the task list, and iterates the phases of a
`{phases: [{name, tasks: [...]}]}` document.  It never calls
`check_configuration`, `load_issues_from_yaml` or `create_github_issue`; it
calls `load_task_list`, `generate_issue_body`, `get_labels_for_task` and
`GitHubIssueCreator.create_issue`, which are not defined in `src/` and are
modelled from the spec below.  We model a run as the ordered list of its
observable events plus the process exit code. -/

/-- Modelled from the spec: `GitHubIssueCreator` is constructed by `main`
(src line 138) and its `create_issue` method called at line 174, but the class
is defined nowhere in `src/`.  Per the Issue Submitter contract a successful
creation yields the returned issue `number` and canonical `html_url`. -/
structure CreatedIssue where
  number : Nat
  html_url : String
deriving DecidableEq

/-- Modelled from the spec: the `create_issue` call itself is kept abstract as
an oracle from (title, body, labels) to an issue or a falsy failure result, so
every theorem about `main` holds for every submitter implementation. -/
abbrev Submit := String → String → List String → Option CreatedIssue

/-- The observable events of one `main` run, in program order.
`submitCall` marks one invocation of `creator.create_issue`, i.e. one network
submission attempt; `preview` marks one dry-run `Would create` line. -/
inductive MainEvent where
  | loadCall (path : String) : MainEvent
  | phaseHeader (name : String) : MainEvent
  | preview (title : String) (labels : List String) : MainEvent
  | creating (title : String) : MainEvent
  | submitCall (title : String) (body : String) (labels : List String) : MainEvent
  | createdLine (number : Nat) (url : String) : MainEvent
  | failedLine : MainEvent
  | fatal (msg : String) : MainEvent
deriving DecidableEq

/-- Modelled from the spec: `generate_issue_body` is called by `main` (src
line 160) but defined nowhere in `src/`.  Per the Issue Mapper contract the
body is the record\x27s body text annotated with the phase name for
traceability; the exact template content is explicitly not a contract. -/
def generate_issue_body (task : Dict) (phase_name : String) : String :=
  (match dictFind task "body" with
   | some (Json.str b) => b
   | _ => "") ++ "\n\nPhase: " ++ phase_name

/-- Modelled from the spec: `get_labels_for_task` is called by `main` (src
line 161) but defined nowhere in `src/`.  Per the Issue Mapper contract the
record\x27s label sequence is passed through verbatim, defaulting to empty. -/
def get_labels_for_task (task : Dict) (_phase_name : String) : List String :=
  strList (pyGetD task "labels" (Json.arr []))

/-- The title computed at src lines 156–164: the task id defaults to the
string `"Unknown"`, the title to `"Untitled Task"`, and the issue title is
always the f-string `"{task_id}: {title}"`. -/
def formatTitle (task : Dict) : String :=
  pyStr (pyGetD task "id" (Json.str "Unknown")) ++ ": " ++
    pyStr (pyGetD task "title" (Json.str "Untitled Task"))

/-- The per-task body of the loop at src lines 155–193. -/
def processTask (dry_run : Bool) (submit : Submit) (phase_name : String)
    (task : Dict) : List MainEvent :=
  let formatted_title := formatTitle task
  let body := generate_issue_body task phase_name
  let labels := get_labels_for_task task phase_name
  if dry_run then
    [MainEvent.preview formatted_title labels]
  else
    MainEvent.creating formatted_title ::
    MainEvent.submitCall formatted_title body labels ::
    (match submit formatted_title body labels with
     | some issue => [MainEvent.createdLine issue.number issue.html_url]
     | none => [MainEvent.failedLine])

/-- One phase of the loop at src lines 151–193: the phase name defaults to
`"Unknown Phase"` and the tasks to `[]`. -/
def processPhase (dry_run : Bool) (submit : Submit) (phase : Json) :
    List MainEvent :=
  let phase_name := pyStr (jGetD phase "name" (Json.str "Unknown Phase"))
  MainEvent.phaseHeader phase_name ::
    ((asArr (jGetD phase "tasks" (Json.arr []))).map
      (fun t => processTask dry_run submit phase_name (asDict t))).flatten

/-- The whole phase loop: `task_list.get('phases', [])` (src line 151). -/
def runPhases (dry_run : Bool) (submit : Submit) (task_list : Json) :
    List MainEvent :=
  ((asArr (jGetD task_list "phases" (Json.arr []))).map
    (processPhase dry_run submit)).flatten

/-- Modelled from the spec: `load_task_list` is called by `main` (src line
135) but defined nowhere in `src/`.  Per the Task-List Loader contract it
fails on a missing file (`NotFoundError`) or a YAML syntax error
(`ParseError`, carrying the parser diagnostic), both fatal to the run; an
empty or null document is not an error and yields a document with no tasks. -/
def load_task_list (read : ReadResult) : Except String Json :=
  match read with
  | ReadResult.missing => Except.error "NotFoundError"
  | ReadResult.parseError details => Except.error ("ParseError: " ++ details)
  | ReadResult.parsed v =>
      if !truthy v then Except.ok (Json.obj []) else Except.ok v

/-- The validated CLI arguments of src lines 125–132. -/
structure Args where
  token : String
  repo : String
  owner : String
  task_file : String
  dry_run : Bool

/-- Models `argparse` (src lines 125–132): `--token`, `--repo` and `--owner`
are declared `required=True`, so argument parsing fails when one is absent;
`--task-file` defaults to `"master-task-list.yml"` and `--dry-run` is a flag.
A present-but-empty string value is accepted. -/
def parse_args (token repo owner task_file : Option String)
    (dry_run : Bool) : Option Args :=
  match token, repo, owner with
  | some t, some r, some o =>
      some ⟨t, r, o, task_file.getD "master-task-list.yml", dry_run⟩
  | _, _, _ => none

/-- `main` after argument parsing (src lines 134–217): load the task list,
then run the phase loop.  The result is the event trace and the process exit
code (1 when the loader fails fatally, 0 otherwise). -/
def main (args : Args) (read : ReadResult) (submit : Submit) :
    List MainEvent × Nat :=
  match load_task_list read with
  | Except.error e => ([MainEvent.loadCall args.task_file, MainEvent.fatal e], 1)
  | Except.ok task_list =>
      (MainEvent.loadCall args.task_file ::
        runPhases args.dry_run submit task_list, 0)

/-- A whole script run: `argparse` (exit code 2 on a missing required
argument, before any file access) followed by `main`. -/
def runScript (token repo owner task_file : Option String) (dry_run : Bool)
    (read : ReadResult) (submit : Submit) : List MainEvent × Nat :=
  match parse_args token repo owner task_file dry_run with
  | none => ([], 2)
  | some args => main args read submit

/-- Is this event a submission attempt (`creator.create_issue` call)? -/
def isSubmit : MainEvent → Bool
  | MainEvent.submitCall _ _ _ => true
  | _ => false

/-- Is this event a dry-run preview line? -/
def isPreview : MainEvent → Bool
  | MainEvent.preview _ _ => true
  | _ => false

/-- Is this event an access of the task file? -/
def isLoad : MainEvent → Bool
  | MainEvent.loadCall _ => true
  | _ => false

/-- Number of submission attempts in a trace. -/
def countSubmits (es : List MainEvent) : Nat :=
  (es.filter isSubmit).length

/-- The (title, labels) pairs of the preview lines of a trace, in order. -/
def previewPairs : List MainEvent → List (String × List String)
  | [] => []
  | MainEvent.preview t ls :: rest => (t, ls) :: previewPairs rest
  | _ :: rest => previewPairs rest

/-- The (title, labels) pairs of the submission attempts of a trace, in
order. -/
def submitPairs : List MainEvent → List (String × List String)
  | [] => []
  | MainEvent.submitCall t _ ls :: rest => (t, ls) :: submitPairs rest
  | _ :: rest => submitPairs rest

/-- Total number of task records across phases, as src line 201 counts them:
`sum(len(phase.get('tasks', [])) for phase in task_list.get('phases', []))`. -/
def taskCount (task_list : Json) : Nat :=
  ((asArr (jGetD task_list "phases" (Json.arr []))).map
    (fun p => (asArr (jGetD p "tasks" (Json.arr []))).length)).sum

/-- Number of task records whose `title` is present and non-empty (the
measure the spec states submission attempts should equal). -/
def nonEmptyTitleCount (task_list : Json) : Nat :=
  ((asArr (jGetD task_list "phases" (Json.arr []))).map
    (fun p => ((asArr (jGetD p "tasks" (Json.arr []))).filter
      (fun t => truthy (pyGet (asDict t) "title"))).length)).sum

/-- The (title, labels) pairs `main` computes for the tasks of one phase. -/
def phasePairs (phase : Json) : List (String × List String) :=
  (asArr (jGetD phase "tasks" (Json.arr []))).map
    (fun t => (formatTitle (asDict t),
      get_labels_for_task (asDict t)
        (pyStr (jGetD phase "name" (Json.str "Unknown Phase")))))

/-- The (title, labels) pairs `main` computes across all phases, in order. -/
def allPairs (task_list : Json) : List (String × List String) :=
  ((asArr (jGetD task_list "phases" (Json.arr []))).map phasePairs).flatten

/-- A network oracle whose every request fails with a transport exception;
used to instantiate theorems at concrete inputs. -/
def netStub : Dict → PostResult := fun _ => PostResult.exn "boom"

/-- A submitter that rejects every issue; used to instantiate theorems at
concrete inputs. -/
def submitNone : Submit := fun _ _ _ => none

/-! ## Helper lemmas -/

theorem pyGet_of_not_hasKey (d : Dict) (k : String) (h : hasKey d k = false) :
    pyGet d k = Json.null := by
  unfold hasKey at h
  unfold pyGet
  cases hf : dictFind d k with
  | none => rfl
  | some v => rw [hf] at h; simp at h

theorem pyGetD_of_not_hasKey (d : Dict) (k : String) (default : Json)
    (h : hasKey d k = false) : pyGetD d k default = default := by
  unfold hasKey at h
  unfold pyGetD
  cases hf : dictFind d k with
  | none => rfl
  | some v => rw [hf] at h; simp at h

theorem processTask_dry_eq (s : Submit) (pn : String) (t : Dict) :
    processTask true s pn t =
      [MainEvent.preview (formatTitle t) (get_labels_for_task t pn)] := rfl

theorem countSubmits_processTask (s : Submit) (pn : String) (t : Dict) :
    countSubmits (processTask false s pn t) = 1 := by
  cases hs : s (formatTitle t) (generate_issue_body t pn)
      (get_labels_for_task t pn) <;>
    simp [processTask, countSubmits, isSubmit, hs]

theorem submitPairs_processTask (s : Submit) (pn : String) (t : Dict) :
    submitPairs (processTask false s pn t) =
      [(formatTitle t, get_labels_for_task t pn)] := by
  cases hs : s (formatTitle t) (generate_issue_body t pn)
      (get_labels_for_task t pn) <;>
    simp [processTask, submitPairs, hs]

theorem previewPairs_processTask (s : Submit) (pn : String) (t : Dict) :
    previewPairs (processTask true s pn t) =
      [(formatTitle t, get_labels_for_task t pn)] := rfl

theorem submitPairs_append (a b : List MainEvent) :
    submitPairs (a ++ b) = submitPairs a ++ submitPairs b := by
  induction a with
  | nil => rfl
  | cons e rest ih => cases e <;> simp [submitPairs, ih]

theorem previewPairs_append (a b : List MainEvent) :
    previewPairs (a ++ b) = previewPairs a ++ previewPairs b := by
  induction a with
  | nil => rfl
  | cons e rest ih => cases e <;> simp [previewPairs, ih]

theorem countSubmits_append (a b : List MainEvent) :
    countSubmits (a ++ b) = countSubmits a + countSubmits b := by
  simp [countSubmits]

theorem submitPairs_flatten (ls : List (List MainEvent)) :
    submitPairs ls.flatten = (ls.map submitPairs).flatten := by
  induction ls with
  | nil => rfl
  | cons a ls ih => simp [submitPairs_append, ih]

theorem previewPairs_flatten (ls : List (List MainEvent)) :
    previewPairs ls.flatten = (ls.map previewPairs).flatten := by
  induction ls with
  | nil => rfl
  | cons a ls ih => simp [previewPairs_append, ih]

/-! ## C9 -/

/-- C9: `load_issues_from_yaml` returns the same sentinel (`None`) for a
missing file and for a YAML parse error, so the caller cannot tell the two
failure conditions apart from the return value; only the empty-document
result (`[]`) is distinguishable from them. -/
theorem c9_loader_error_sentinel (path details : String) :
    (load_issues_from_yaml path ReadResult.missing).1 =
      (load_issues_from_yaml path (ReadResult.parseError details)).1 ∧
    (load_issues_from_yaml path ReadResult.missing).1 = none ∧
    (load_issues_from_yaml path (ReadResult.parsed Json.null)).1 =
      some (Json.arr []) ∧
    (load_issues_from_yaml path (ReadResult.parsed Json.null)).1 ≠
      (load_issues_from_yaml path ReadResult.missing).1 := by
  refine ⟨rfl, rfl, rfl, ?_⟩
  simp [load_issues_from_yaml, truthy]

/-! ## C10 -/

/-- C10: every record that reaches payload construction yields a payload
containing the keys `title`, `body` and `labels`; `body` is present with
value null (not omitted) when the record has no body, and `labels` defaults
to the empty sequence when absent. -/
theorem dictFind_append (a b : Dict) (k : String) :
    dictFind (a ++ b) k = (dictFind a k).orElse (fun _ => dictFind b k) := by
  induction a with
  | nil => simp [dictFind]
  | cons hd tl ih =>
      obtain ⟨k2, v⟩ := hd
      by_cases hk : k2 = k <;> simp [dictFind, hk, ih]

theorem dictFind_payloadOf (d : Dict) (k : String) (v : Json)
    (hk : dictFind (basePayload d) k = some v) :
    dictFind (payloadOf d) k = some v := by
  unfold payloadOf
  split
  · rw [dictFind_append, hk]; rfl
  · exact hk

theorem c10_payload_keys (d : Dict) (net : Dict → PostResult)
    (h : hasKey d "title" = true) :
    (create_github_issue d net).2 = some (payloadOf d) ∧
    dictFind (payloadOf d) "title" = some (pyGet d "title") ∧
    dictFind (payloadOf d) "body" = some (pyGet d "body") ∧
    (hasKey d "body" = false →
      dictFind (payloadOf d) "body" = some Json.null) ∧
    dictFind (payloadOf d) "labels" =
      some (pyGetD d "labels" (Json.arr [])) ∧
    (hasKey d "labels" = false →
      dictFind (payloadOf d) "labels" = some (Json.arr [])) := by
  refine ⟨?_, ?_, ?_, ?_, ?_, ?_⟩
  · unfold create_github_issue
    simp [h]
  · exact dictFind_payloadOf d _ _ (by simp [basePayload, dictFind])
  · exact dictFind_payloadOf d _ _ (by simp [basePayload, dictFind])
  · intro hb
    refine dictFind_payloadOf d _ _ ?_
    rw [← pyGet_of_not_hasKey d "body" hb]
    simp [basePayload, dictFind]
  · exact dictFind_payloadOf d _ _ (by simp [basePayload, dictFind])
  · intro hl
    refine dictFind_payloadOf d _ _ ?_
    rw [← pyGetD_of_not_hasKey d "labels" (Json.arr []) hl]
    simp [basePayload, dictFind]

/-- Witness for C10 at the concrete record `{title: "T"}`. -/
theorem c10_payload_keys_witness :
    hasKey [("title", Json.str "T")] "title" = true ∧
    ((create_github_issue [("title", Json.str "T")] netStub).2 =
        some (payloadOf [("title", Json.str "T")]) ∧
      dictFind (payloadOf [("title", Json.str "T")]) "title" =
        some (pyGet [("title", Json.str "T")] "title") ∧
      dictFind (payloadOf [("title", Json.str "T")]) "body" =
        some (pyGet [("title", Json.str "T")] "body") ∧
      (hasKey [("title", Json.str "T")] "body" = false →
        dictFind (payloadOf [("title", Json.str "T")]) "body" =
          some Json.null) ∧
      dictFind (payloadOf [("title", Json.str "T")]) "labels" =
        some (pyGetD [("title", Json.str "T")] "labels" (Json.arr [])) ∧
      (hasKey [("title", Json.str "T")] "labels" = false →
        dictFind (payloadOf [("title", Json.str "T")]) "labels" =
          some (Json.arr []))) :=
  ⟨rfl, c10_payload_keys [("title", Json.str "T")] netStub rfl⟩

/-! ## C1 -/

/-- C1 fails as stated: in `main` the task id defaults to the string
`"Unknown"` (src line 156) and the issue title is always the composite
f-string (src line 164), so the record `{title: "Write README"}` with no `id`
yields the payload title `"Unknown: Write README"`, not `"Write README"`. -/
theorem c1_counterexample :
    formatTitle [("title", Json.str "Write README")] =
      "Unknown: Write README" ∧
    formatTitle [("title", Json.str "Write README")] ≠ "Write README" := by
  exact ⟨rfl, by decide⟩

/-- C1 (amended): if the record supplies an `id`, the payload title is
`"{id}: {title}"` (the title itself defaulting to `"Untitled Task"` when
absent); if the record supplies no `id`, the payload title is
`"Unknown: {title}"` — the raw title is never used unchanged. -/
theorem c1_title_formatting (task : Dict) :
    (∀ idv, dictFind task "id" = some idv →
      formatTitle task =
        pyStr idv ++ ": " ++
          pyStr (pyGetD task "title" (Json.str "Untitled Task"))) ∧
    (dictFind task "id" = none →
      formatTitle task =
        "Unknown: " ++
          pyStr (pyGetD task "title" (Json.str "Untitled Task"))) := by
  constructor
  · intro idv hid
    unfold formatTitle pyGetD
    rw [hid]
    rfl
  · intro hid
    unfold formatTitle pyGetD
    rw [hid]
    rfl

/-- Witness for C1 at the records `{id: "T1", title: "Setup repo"}` and
`{title: "Write README"}`. -/
theorem c1_title_formatting_witness :
    formatTitle [("id", Json.str "T1"), ("title", Json.str "Setup repo")] =
      "T1: Setup repo" ∧
    formatTitle [("title", Json.str "Write README")] =
      "Unknown: Write README" :=
  ⟨(c1_title_formatting
      [("id", Json.str "T1"), ("title", Json.str "Setup repo")]).1
      (Json.str "T1") rfl,
   (c1_title_formatting [("title", Json.str "Write README")]).2 rfl⟩

/-! ## C2 -/

/-- C2 fails as stated: `main` does not filter records lacking a `title` —
processing the empty record `{}` (no `title`) in a non-dry run still makes an
issue-creation call, with the substituted default title
`"Unknown: Untitled Task"` and no skip notice. -/
theorem c2_counterexample :
    countSubmits (processTask false submitNone "Phase 1" []) = 1 ∧
    processTask false submitNone "Phase 1" [] =
      [MainEvent.creating "Unknown: Untitled Task",
       MainEvent.submitCall "Unknown: Untitled Task" "\n\nPhase: Phase 1" [],
       MainEvent.failedLine] :=
  ⟨rfl, rfl⟩

/-- C2 (amended): inside `create_github_issue` a record lacking a `title` is
never submitted (no payload is posted), the run continues, and exactly one
skip notice is produced; `main`\x27s loop, however, does not filter such
records: it substitutes the default title `"Untitled Task"` and makes exactly
one submission attempt for them, with no skip notice. -/
theorem c2_missing_title (d : Dict) (net : Dict → PostResult)
    (submit : Submit) (phase_name : String)
    (h : hasKey d "title" = false) :
    create_github_issue d net =
      (["⚠️ Skipping entry because it\x27s missing a \x27title\x27."],
       none) ∧
    countSubmits (processTask false submit phase_name d) = 1 ∧
    submitPairs (processTask false submit phase_name d) =
      [(formatTitle d, get_labels_for_task d phase_name)] ∧
    formatTitle d =
      pyStr (pyGetD d "id" (Json.str "Unknown")) ++ ": " ++
        "Untitled Task" := by
  refine ⟨?_, countSubmits_processTask submit phase_name d,
    submitPairs_processTask submit phase_name d, ?_⟩
  · unfold create_github_issue
    simp [h]
  · unfold formatTitle
    rw [pyGetD_of_not_hasKey d "title" (Json.str "Untitled Task") h]
    rfl

/-- Witness for C2 at the empty record `{}`. -/
theorem c2_missing_title_witness :
    hasKey [] "title" = false ∧
    (create_github_issue [] netStub =
        (["⚠️ Skipping entry because it\x27s missing a \x27title\x27."],
         none) ∧
      countSubmits (processTask false submitNone "P" []) = 1 ∧
      submitPairs (processTask false submitNone "P" []) =
        [(formatTitle [], get_labels_for_task [] "P")] ∧
      formatTitle [] =
        pyStr (pyGetD [] "id" (Json.str "Unknown")) ++ ": " ++
          "Untitled Task") :=
  ⟨rfl, c2_missing_title [] netStub submitNone "P" rfl⟩

/-! ## Phase-loop lemmas -/

theorem countSubmits_phaseHeader (pn : String) (l : List MainEvent) :
    countSubmits (MainEvent.phaseHeader pn :: l) = countSubmits l := by
  simp [countSubmits, isSubmit]

theorem countSubmits_taskChunk (s : Submit) (pn : String) (ts : List Json) :
    countSubmits
      ((ts.map (fun t => processTask false s pn (asDict t))).flatten) =
      ts.length := by
  induction ts with
  | nil => rfl
  | cons t ts ih =>
      simp [countSubmits_append, countSubmits_processTask, ih]
      omega

theorem countSubmits_processPhase (s : Submit) (p : Json) :
    countSubmits (processPhase false s p) =
      (asArr (jGetD p "tasks" (Json.arr []))).length := by
  simp only [processPhase]
  rw [countSubmits_phaseHeader]
  exact countSubmits_taskChunk s _ _

theorem countSubmits_runPhases (s : Submit) (tl : Json) :
    countSubmits (runPhases false s tl) = taskCount tl := by
  unfold runPhases taskCount
  generalize asArr (jGetD tl "phases" (Json.arr [])) = ps
  induction ps with
  | nil => rfl
  | cons p ps ih =>
      simp [countSubmits_append, countSubmits_processPhase, ih]

theorem countSubmits_processTask_dry (s : Submit) (pn : String) (t : Dict) :
    countSubmits (processTask true s pn t) = 0 := rfl

theorem countSubmits_dry_taskChunk (s : Submit) (pn : String)
    (ts : List Json) :
    countSubmits
      ((ts.map (fun t => processTask true s pn (asDict t))).flatten) = 0 := by
  induction ts with
  | nil => rfl
  | cons t ts ih =>
      simp [countSubmits_append, countSubmits_processTask_dry, ih]

theorem countSubmits_dry_runPhases (s : Submit) (tl : Json) :
    countSubmits (runPhases true s tl) = 0 := by
  unfold runPhases
  generalize asArr (jGetD tl "phases" (Json.arr [])) = ps
  induction ps with
  | nil => rfl
  | cons p ps ih =>
      simp only [List.map_cons, List.flatten_cons, countSubmits_append, ih,
        processPhase]
      rw [countSubmits_phaseHeader, countSubmits_dry_taskChunk]

theorem previewPairs_taskChunk (s : Submit) (pn : String) (ts : List Json) :
    previewPairs
      ((ts.map (fun t => processTask true s pn (asDict t))).flatten) =
      ts.map (fun t => (formatTitle (asDict t),
        get_labels_for_task (asDict t) pn)) := by
  induction ts with
  | nil => rfl
  | cons t ts ih =>
      simp [previewPairs_append, previewPairs_processTask, ih]

theorem submitPairs_taskChunk (s : Submit) (pn : String) (ts : List Json) :
    submitPairs
      ((ts.map (fun t => processTask false s pn (asDict t))).flatten) =
      ts.map (fun t => (formatTitle (asDict t),
        get_labels_for_task (asDict t) pn)) := by
  induction ts with
  | nil => rfl
  | cons t ts ih =>
      simp [submitPairs_append, submitPairs_processTask, ih]

theorem previewPairs_processPhase (s : Submit) (p : Json) :
    previewPairs (processPhase true s p) = phasePairs p := by
  simp only [processPhase, phasePairs]
  rw [show ∀ pn (l : List MainEvent),
      previewPairs (MainEvent.phaseHeader pn :: l) = previewPairs l from
    fun pn l => by simp [previewPairs]]
  exact previewPairs_taskChunk s _ _

theorem submitPairs_processPhase (s : Submit) (p : Json) :
    submitPairs (processPhase false s p) = phasePairs p := by
  simp only [processPhase, phasePairs]
  rw [show ∀ pn (l : List MainEvent),
      submitPairs (MainEvent.phaseHeader pn :: l) = submitPairs l from
    fun pn l => by simp [submitPairs]]
  exact submitPairs_taskChunk s _ _

theorem previewPairs_runPhases (s : Submit) (tl : Json) :
    previewPairs (runPhases true s tl) = allPairs tl := by
  unfold runPhases allPairs
  generalize asArr (jGetD tl "phases" (Json.arr [])) = ps
  induction ps with
  | nil => rfl
  | cons p ps ih =>
      simp [previewPairs_append, previewPairs_processPhase, ih]

theorem submitPairs_runPhases (s : Submit) (tl : Json) :
    submitPairs (runPhases false s tl) = allPairs tl := by
  unfold runPhases allPairs
  generalize asArr (jGetD tl "phases" (Json.arr [])) = ps
  induction ps with
  | nil => rfl
  | cons p ps ih =>
      simp [submitPairs_append, submitPairs_processPhase, ih]

theorem length_allPairs (tl : Json) :
    (allPairs tl).length = taskCount tl := by
  unfold allPairs taskCount
  generalize asArr (jGetD tl "phases" (Json.arr [])) = ps
  induction ps with
  | nil => rfl
  | cons p ps ih =>
      simp [ih, phasePairs]

theorem processPhase_dry_indep (s1 s2 : Submit) (p : Json) :
    processPhase true s1 p = processPhase true s2 p := by
  simp only [processPhase, processTask_dry_eq]

theorem runPhases_dry_indep (s1 s2 : Submit) (tl : Json) :
    runPhases true s1 tl = runPhases true s2 tl := by
  unfold runPhases
  have h : ∀ p ∈ asArr (jGetD tl "phases" (Json.arr [])),
      processPhase true s1 p = processPhase true s2 p :=
    fun p _ => processPhase_dry_indep s1 s2 p
  rw [List.map_congr_left h]

/-! ## C5 -/

/-- C5 fails as stated: in the task list `{phases: [{name: "P",
tasks: [{}]}]}` the single record has no `title` at all, yet the run makes
one submission attempt for it (with the default title), so attempts (1) do
not equal the number of records with a non-empty title (0). -/
theorem c5_counterexample :
    countSubmits (runPhases false submitNone
      (Json.obj [("phases", Json.arr [Json.obj [("name", Json.str "P"),
        ("tasks", Json.arr [Json.obj []])]])])) = 1 ∧
    nonEmptyTitleCount
      (Json.obj [("phases", Json.arr [Json.obj [("name", Json.str "P"),
        ("tasks", Json.arr [Json.obj []])]])]) = 0 :=
  ⟨rfl, rfl⟩

/-- C5 (amended): for every task list, the number of submission attempts of a
non-dry run equals the total number of task records — records lacking a
`title` included, since they are submitted with a default title — and the
number of attempts is the same for every submitter, i.e. an individual
submission failure never aborts the loop over the remaining tasks. -/
theorem c5_submission_attempts (task_list : Json) (submit other : Submit) :
    countSubmits (runPhases false submit task_list) = taskCount task_list ∧
    countSubmits (runPhases false submit task_list) =
      countSubmits (runPhases false other task_list) := by
  refine ⟨countSubmits_runPhases submit task_list, ?_⟩
  rw [countSubmits_runPhases, countSubmits_runPhases]

/-! ## C4 -/

/-- C4: with dry-run enabled the submitter is never invoked — the trace is
the same for every submitter and contains zero submission attempts — and
exactly one preview is produced per record, whose title and labels are
exactly those a non-dry run would send for the same record, in the same
order. -/
theorem c4_dry_run (task_list : Json) (s1 s2 : Submit) :
    runPhases true s1 task_list = runPhases true s2 task_list ∧
    countSubmits (runPhases true s1 task_list) = 0 ∧
    (previewPairs (runPhases true s1 task_list)).length =
      taskCount task_list ∧
    previewPairs (runPhases true s1 task_list) =
      submitPairs (runPhases false s2 task_list) := by
  refine ⟨runPhases_dry_indep s1 s2 task_list,
    countSubmits_dry_runPhases s1 task_list, ?_, ?_⟩
  · rw [previewPairs_runPhases, length_allPairs]
  · rw [previewPairs_runPhases, submitPairs_runPhases]

/-! ## C3 -/

theorem token_truthy (t : Option String) :
    truthy ((t.map Json.str).getD Json.null) = false ↔
      t = none ∨ t = some "" := by
  rcases t with _ | s
  · simp [truthy]
  · simp [truthy, String.isEmpty_iff]

theorem check_configuration_false_iff (ro rn : String) (gt : Option String) :
    check_configuration ro rn gt = false ↔
      ro = ownerPlaceholder ∨ rn = namePlaceholder ∨
        gt = none ∨ gt = some "" := by
  rcases gt with _ | s
  · by_cases h1 : ro = ownerPlaceholder <;>
      by_cases h2 : rn = namePlaceholder <;>
        simp [check_configuration, truthy, h1, h2]
  · by_cases h1 : ro = ownerPlaceholder <;>
      by_cases h2 : rn = namePlaceholder <;>
        by_cases h3 : s = "" <;>
          simp [check_configuration, truthy, h1, h2, h3, Bool.not_not,
            String.isEmpty_iff]

theorem filter_isLoad_processTask (dr : Bool) (s : Submit) (pn : String)
    (t : Dict) :
    (processTask dr s pn t).filter isLoad = [] := by
  cases dr with
  | true => simp [processTask, isLoad]
  | false =>
      cases hs : s (formatTitle t) (generate_issue_body t pn)
          (get_labels_for_task t pn) <;>
        simp [processTask, isLoad, hs]

theorem filter_isLoad_chunk (dr : Bool) (s : Submit) (pn : String)
    (ts : List Json) :
    (((ts.map (fun t => processTask dr s pn (asDict t))).flatten).filter
      isLoad) = [] := by
  induction ts with
  | nil => rfl
  | cons t ts ih => simp [filter_isLoad_processTask, ih]

theorem filter_isLoad_processPhase (dr : Bool) (s : Submit) (p : Json) :
    (processPhase dr s p).filter isLoad = [] := by
  simp only [processPhase, List.filter_cons]
  have hh : ∀ pn, isLoad (MainEvent.phaseHeader pn) = false := fun pn => rfl
  rw [hh, if_neg Bool.false_ne_true]
  exact filter_isLoad_chunk dr s _ _

theorem filter_isLoad_runPhases (dr : Bool) (s : Submit) (tl : Json) :
    (runPhases dr s tl).filter isLoad = [] := by
  unfold runPhases
  generalize asArr (jGetD tl "phases" (Json.arr [])) = ps
  induction ps with
  | nil => rfl
  | cons p ps ih => simp [filter_isLoad_processPhase, ih]

/-- C3 fails as stated: `main` never calls `check_configuration` — a run
whose owner/repo equal the placeholder sentinels and whose token is empty
still proceeds to load the task file and completes with exit code 0 —
although `check_configuration` itself does reject exactly that
configuration. -/
theorem c3_counterexample :
    check_configuration "YourGitHubUsername" "your-repo-name" (some "") =
      false ∧
    runScript (some "") (some "your-repo-name") (some "YourGitHubUsername")
        none false (ReadResult.parsed Json.null) submitNone =
      ([MainEvent.loadCall "master-task-list.yml"], 0) :=
  ⟨rfl, rfl⟩

/-- C3 (amended): `check_configuration` returns failure exactly when
owner/repo still equal the placeholder sentinels or the token is absent or
empty; but `main` never invokes it — a run aborts pre-flight (exit code 2,
no file access) only when a required CLI argument is missing entirely, and
whenever all three are supplied, placeholder or empty values included, the
run proceeds to exactly one load of the task file. -/
theorem c3_configuration (repo_owner repo_name : String)
    (github_token : Option String) (token repo owner : String)
    (task_file : Option String) (dry_run : Bool) (read : ReadResult)
    (submit : Submit) :
    (check_configuration repo_owner repo_name github_token = false ↔
      repo_owner = ownerPlaceholder ∨ repo_name = namePlaceholder ∨
        github_token = none ∨ github_token = some "") ∧
    runScript none (some repo) (some owner) task_file dry_run read submit =
      ([], 2) ∧
    (runScript (some token) (some repo) (some owner) task_file dry_run read
        submit).1.filter isLoad =
      [MainEvent.loadCall (task_file.getD "master-task-list.yml")] := by
  refine ⟨check_configuration_false_iff repo_owner repo_name github_token,
    rfl, ?_⟩
  unfold runScript parse_args main
  cases hl : load_task_list read with
  | error e => simp [isLoad]
  | ok tl => simp [isLoad, filter_isLoad_runPhases]

/-! ## C6 -/

/-- C6: a YAML parse result that is empty or null makes
`load_issues_from_yaml` return the empty sequence `[]` (not the `None`
failure sentinel), and the run treats it as a successful no-op — exit code 0
and zero submission attempts — while a missing file and a malformed document
abort the run with exit code 1 before any submission attempt. -/
theorem c6_empty_document (path details : String) (args : Args)
    (submit : Submit) (v : Json) (hv : truthy v = false) :
    (load_issues_from_yaml path (ReadResult.parsed v)).1 =
      some (Json.arr []) ∧
    (load_issues_from_yaml path ReadResult.missing).1 = none ∧
    (load_issues_from_yaml path (ReadResult.parseError details)).1 =
      none ∧
    (main args (ReadResult.parsed v) submit).2 = 0 ∧
    countSubmits (main args (ReadResult.parsed v) submit).1 = 0 ∧
    (main args ReadResult.missing submit).2 = 1 ∧
    countSubmits (main args ReadResult.missing submit).1 = 0 ∧
    (main args (ReadResult.parseError details) submit).2 = 1 ∧
    countSubmits (main args (ReadResult.parseError details) submit).1 =
      0 := by
  refine ⟨?_, rfl, rfl, ?_, ?_, rfl, rfl, rfl, rfl⟩
  · simp [load_issues_from_yaml, hv]
  · simp [main, load_task_list, hv]
  · simp [main, load_task_list, hv, runPhases, jGetD, pyGetD, asDict,
      dictFind, asArr, countSubmits, isSubmit]

/-- Witness for C6 at the null document parsed from an empty file. -/
theorem c6_empty_document_witness :
    truthy Json.null = false ∧
    ((load_issues_from_yaml "master-task-list.yml"
        (ReadResult.parsed Json.null)).1 = some (Json.arr []) ∧
      (load_issues_from_yaml "master-task-list.yml"
        ReadResult.missing).1 = none ∧
      (load_issues_from_yaml "master-task-list.yml"
        (ReadResult.parseError "bad yaml")).1 = none ∧
      (main ⟨"tok", "repo", "owner", "master-task-list.yml", false⟩
        (ReadResult.parsed Json.null) submitNone).2 = 0 ∧
      countSubmits (main ⟨"tok", "repo", "owner", "master-task-list.yml",
        false⟩ (ReadResult.parsed Json.null) submitNone).1 = 0 ∧
      (main ⟨"tok", "repo", "owner", "master-task-list.yml", false⟩
        ReadResult.missing submitNone).2 = 1 ∧
      countSubmits (main ⟨"tok", "repo", "owner", "master-task-list.yml",
        false⟩ ReadResult.missing submitNone).1 = 0 ∧
      (main ⟨"tok", "repo", "owner", "master-task-list.yml", false⟩
        (ReadResult.parseError "bad yaml") submitNone).2 = 1 ∧
      countSubmits (main ⟨"tok", "repo", "owner", "master-task-list.yml",
        false⟩ (ReadResult.parseError "bad yaml") submitNone).1 = 0) :=
  ⟨rfl, c6_empty_document "master-task-list.yml" "bad yaml"
    ⟨"tok", "repo", "owner", "master-task-list.yml", false⟩ submitNone
    Json.null rfl⟩

/-! ## C7 -/

/-- C7 fails as stated: on a 201 response the success report carries the
canonical URL but not the returned issue number (here 42, which appears
nowhere in the output), and a 422 response with a body goes through the
exception path — `raise_for_status` raises before the status/body branch is
reached — so the failure reason does not preserve the response body. -/
theorem c7_counterexample :
    (create_github_issue [("title", Json.str "T")]
        (fun _ => PostResult.ok ⟨201, "", 42, "https://x/issues/9"⟩)).1 =
      ["✅ Successfully created issue: \x27T\x27",
       "   URL: https://x/issues/9"] ∧
    strContains "✅ Successfully created issue: \x27T\x27" "42" = false ∧
    strContains "   URL: https://x/issues/9" "42" = false ∧
    (create_github_issue [("title", Json.str "T")]
        (fun _ => PostResult.ok ⟨422, "VALIDATION-BODY", 0, ""⟩)).1 =
      ["❌ Error connecting to the GitHub API for issue: \x27T\x27",
       "   Details: " ++ httpErrorMsg ⟨422, "VALIDATION-BODY", 0, ""⟩] ∧
    strContains
      ("   Details: " ++ httpErrorMsg ⟨422, "VALIDATION-BODY", 0, ""⟩)
      "VALIDATION-BODY" = false :=
  ⟨rfl, rfl, rfl, rfl, rfl⟩

/-- C7 (amended): within `create_github_issue` (title present, no milestone
notice), a 201 response yields the success report carrying the canonical
`html_url` — the issue number is not part of the report; a non-201 status
below 400 yields the failure report preserving the status code and the
response body; a 4xx/5xx status makes `raise_for_status` raise an
`HTTPError`, caught by the function\x27s own `RequestException` handler, so
the report carries only the exception message (which names the status but
not the response body); a transport-level failure likewise reports the
exception message. -/
theorem c7_submission_outcomes (d : Dict) (r : HttpResponse) (msg : String)
    (ht : hasKey d "title" = true)
    (hm : truthy (pyGet d "milestone") = false) :
    (create_github_issue d (fun _ => PostResult.ok r)).1 =
      (if 400 ≤ r.status then
        ["❌ Error connecting to the GitHub API for issue: \x27" ++
           pyStr (pyGet d "title") ++ "\x27",
         "   Details: " ++ httpErrorMsg r]
      else if r.status = 201 then
        ["✅ Successfully created issue: \x27" ++
           pyStr (pyGet d "title") ++ "\x27",
         "   URL: " ++ r.html_url]
      else
        ["⚠️ Failed to create issue \x27" ++ pyStr (pyGet d "title") ++
           "\x27 with status code: " ++ toString r.status,
         "   Response: " ++ r.text]) ∧
    (create_github_issue d (fun _ => PostResult.exn msg)).1 =
      ["❌ Error connecting to the GitHub API for issue: \x27" ++
         pyStr (pyGet d "title") ++ "\x27",
       "   Details: " ++ msg] := by
  constructor <;>
    · unfold create_github_issue
      simp [ht, hm]

/-- Witness for C7 at the record `{title: "T"}` with a 201 response and a
transport failure. -/
theorem c7_submission_outcomes_witness :
    hasKey [("title", Json.str "T")] "title" = true ∧
    truthy (pyGet [("title", Json.str "T")] "milestone") = false ∧
    ((create_github_issue [("title", Json.str "T")]
        (fun _ => PostResult.ok ⟨201, "", 42, "https://x/issues/9"⟩)).1 =
      (if 400 ≤ (201 : Nat) then
        ["❌ Error connecting to the GitHub API for issue: \x27" ++
           pyStr (pyGet [("title", Json.str "T")] "title") ++ "\x27",
         "   Details: " ++ httpErrorMsg ⟨201, "", 42, "https://x/issues/9"⟩]
      else if (201 : Nat) = 201 then
        ["✅ Successfully created issue: \x27" ++
           pyStr (pyGet [("title", Json.str "T")] "title") ++ "\x27",
         "   URL: " ++ "https://x/issues/9"]
      else
        ["⚠️ Failed to create issue \x27" ++
           pyStr (pyGet [("title", Json.str "T")] "title") ++
           "\x27 with status code: " ++ toString (201 : Nat),
         "   Response: " ++ ""]) ∧
      (create_github_issue [("title", Json.str "T")]
        (fun _ => PostResult.exn "connection timed out")).1 =
      ["❌ Error connecting to the GitHub API for issue: \x27" ++
         pyStr (pyGet [("title", Json.str "T")] "title") ++ "\x27",
       "   Details: " ++ "connection timed out"]) :=
  ⟨rfl, rfl, c7_submission_outcomes [("title", Json.str "T")]
    ⟨201, "", 42, "https://x/issues/9"⟩ "connection timed out" rfl rfl⟩

/-! ## C8 -/

theorem isInfoLine_info (s : String) :
    isInfoLine ("ℹ️ Info: Milestone \x27" ++ s ++
      "\x27 ignored. API requires a numeric ID.") = true := rfl

theorem isInfoLine_err (s : String) :
    isInfoLine ("❌ Error connecting to the GitHub API for issue: \x27" ++
      s ++ "\x27") = false := rfl

theorem isInfoLine_details (s : String) :
    isInfoLine ("   Details: " ++ s) = false := rfl

theorem isInfoLine_success (s : String) :
    isInfoLine ("✅ Successfully created issue: \x27" ++ s ++ "\x27") =
      false := rfl

theorem isInfoLine_url (s : String) :
    isInfoLine ("   URL: " ++ s) = false := rfl

theorem isInfoLine_failed (s t : String) :
    isInfoLine ("⚠️ Failed to create issue \x27" ++ s ++
      "\x27 with status code: " ++ t) = false := rfl

theorem isInfoLine_response (s : String) :
    isInfoLine ("   Response: " ++ s) = false := rfl

/-- C8 fails as stated: a record containing the milestone value `""` (an
empty string is falsy in Python, so `if issue_data.get("milestone"):` does
not fire) gets no informational notice at all — the payload still contains
no `milestone` key, and the record otherwise proceeds normally. -/
theorem c8_counterexample :
    hasKey [("title", Json.str "T"), ("milestone", Json.str "")]
      "milestone" = true ∧
    dictFind (payloadOf [("title", Json.str "T"),
      ("milestone", Json.str "")]) "milestone" = none ∧
    infoCount (create_github_issue [("title", Json.str "T"),
      ("milestone", Json.str "")] netStub).1 = 0 ∧
    (create_github_issue [("title", Json.str "T"),
      ("milestone", Json.str "")] netStub).1 =
      ["❌ Error connecting to the GitHub API for issue: \x27T\x27",
       "   Details: boom"] :=
  ⟨rfl, rfl, rfl, rfl⟩

/-- C8 (amended): for every task record containing a truthy (non-empty,
non-null) `milestone` value, the payload contains no `milestone` key,
exactly one informational notice is emitted, and the record otherwise
proceeds normally — the payload is still posted. -/
theorem c8_milestone (d : Dict) (net : Dict → PostResult)
    (ht : hasKey d "title" = true)
    (hm : truthy (pyGet d "milestone") = true) :
    dictFind (payloadOf d) "milestone" = none ∧
    (create_github_issue d net).2 = some (payloadOf d) ∧
    infoCount (create_github_issue d net).1 = 1 := by
  refine ⟨?_, ?_, ?_⟩
  · unfold payloadOf
    split <;> simp [basePayload, dictFind, dictFind_append]
  · unfold create_github_issue
    simp [ht]
  · unfold create_github_issue
    simp only [ht, Bool.not_true, Bool.false_eq_true, if_false, hm, if_true]
    cases hn : net (payloadOf d) with
    | exn msg =>
        simp [infoCount, isInfoLine_info, isInfoLine_err, isInfoLine_details]
    | ok r =>
        by_cases h4 : 400 ≤ r.status
        · simp [h4, infoCount, isInfoLine_info, isInfoLine_err,
            isInfoLine_details]
        · by_cases h5 : r.status = 201
          · simp [h4, h5, infoCount, isInfoLine_info, isInfoLine_success,
              isInfoLine_url]
          · simp [h4, h5, infoCount, isInfoLine_info, isInfoLine_failed,
              isInfoLine_response]

/-- Witness for C8 at the record `{title: "T", milestone: "v1"}`. -/
theorem c8_milestone_witness :
    hasKey [("title", Json.str "T"), ("milestone", Json.str "v1")]
      "title" = true ∧
    truthy (pyGet [("title", Json.str "T"), ("milestone", Json.str "v1")]
      "milestone") = true ∧
    (dictFind (payloadOf [("title", Json.str "T"),
        ("milestone", Json.str "v1")]) "milestone" = none ∧
      (create_github_issue [("title", Json.str "T"),
        ("milestone", Json.str "v1")] netStub).2 =
        some (payloadOf [("title", Json.str "T"),
          ("milestone", Json.str "v1")]) ∧
      infoCount (create_github_issue [("title", Json.str "T"),
        ("milestone", Json.str "v1")] netStub).1 = 1) :=
  ⟨rfl, rfl, c8_milestone [("title", Json.str "T"),
    ("milestone", Json.str "v1")] netStub rfl rfl⟩

end GhIssues
